import Mathlib

/-!
Verification development for the gcp-brownbag-agents repository: a shallow
embedding of its tool adapters (HackerNews story fetch, DuckDuckGo search,
webpage-to-Markdown fetch), the tool-gating predicates, the three-stage
pipeline's usage limits, the tenacity retry wrapper and the final Markdown
assembly, together with theorems settling the specification's claims.

External I/O (httpx, the DDGS provider, markdownify) is abstracted as
explicit function parameters; everything the repository's own code computes
is translated directly from the Python source.
-/

namespace Gcp

/-- Story (main.py lines 91-94 and types.py lines 35-39): a validated pair of
title and url; a detail response that fails this schema is dropped. -/
structure Story where
  title : String
  url : String
deriving DecidableEq

/-- ReferenceLink (main.py lines 53-57, types.py lines 13-17): web address of a
helpful resource. -/
structure ReferenceLink where
  description : String
  url : String
deriving DecidableEq

/-- ImageLink (main.py lines 60-64, types.py lines 20-24): web address of an
image or figure. -/
structure ImageLink where
  description : String
  url : String
deriving DecidableEq

/-- ResearchResult (main.py lines 67-72): full text plus reference and image
lists, in the field order of the source. -/
structure ResearchResult where
  full_text : String
  references : List ReferenceLink
  images : List ImageLink

/-- DuckDuckGoResult (main.py lines 140-148, types.py lines 42-50): one
validated search hit with title, href and body. -/
structure DuckDuckGoResult where
  title : String
  href : String
  body : String
deriving DecidableEq

/-- Raw, not-yet-validated search hit as returned by the DDGS provider; each of
the three required fields may be missing, in which case TypeAdapter validation
of the hit fails. -/
structure RawSearchResult where
  title : Option String
  href : Option String
  body : Option String
deriving DecidableEq

/-- RunDeps of main.py (lines 24-27): the shared httpx client (opaque here) and
the search_goal intent flag. -/
structure MainRunDeps where
  client : Unit
  search_goal : String

/-- RunDeps of the package variant (src/gcp_brownbag_agents/types.py lines 8-10):
only the httpx client; this variant has no search_goal or intent field. -/
structure PkgRunDeps where
  client : Unit

/-- Gating predicate select_hn (main.py lines 75-80): return the tool definition
exactly when the run's search_goal equals the sentinel, otherwise None. -/
def select_hn {α : Type} (search_goal : String) (tool_def : α) : Option α :=
  if search_goal = ("HN" : String) then some tool_def else none

/-- Gating predicate select_search (main.py lines 83-88): return the tool
definition exactly when the run's search_goal differs from the sentinel. -/
def select_search {α : Type} (search_goal : String) (tool_def : α) : Option α :=
  if search_goal ≠ ("HN" : String) then some tool_def else none

/-- RunDeps constructed inside get_research_result (main.py line 215): the
search_goal is fixed to the sentinel for the whole run. -/
def research_deps : MainRunDeps :=
  { client := (), search_goal := "HN" }

/-- Markdown image embed written for one image record (main.py line 262). -/
def imageLine (img : ImageLink) : String :=
  "![" ++ img.description ++ "](" ++ img.url ++ ")\n"

/-- Markdown link line written for one reference record (main.py line 265). -/
def referenceLine (ref : ReferenceLink) : String :=
  "- [" ++ ref.description ++ "](" ++ ref.url ++ ")\n"

/-- Final Markdown assembly result_md (main.py lines 260-265); the two for-loops
accumulating into result_md with string concatenation become left folds. -/
def result_md (research_result : ResearchResult) : String :=
  let s1 := research_result.full_text ++ "\n\n"
  let s2 := research_result.images.foldl (fun acc img => acc ++ imageLine img) s1
  let s3 := s2 ++ "\n## References:\n\n"
  research_result.references.foldl (fun acc ref => acc ++ referenceLine ref) s3

/-- Concatenation of the image embed lines in list order; used to decompose
result_md into independent sections. -/
def imagesMd : List ImageLink → String
  | [] => ""
  | img :: rest => imageLine img ++ imagesMd rest

/-- Concatenation of the reference link lines in list order. -/
def referencesMd : List ReferenceLink → String
  | [] => ""
  | ref :: rest => referenceLine ref ++ referencesMd rest

/-- HackerNewsTool.execute (tools.py lines 65-105), with the feed-index response
already decoded to feedIds and the per-id detail fetch abstracted: fetchStory
id is some story when the detail GET succeeded and the body passed Story schema
validation, and none when the fetch failed or the body was schema-invalid
(the helper at tools.py lines 107-127 catches transport errors, bad statuses
and validation errors and returns None). The result type has no null or
placeholder entries by construction. -/
def hackerNewsExecute (fetchStory : String → Option Story)
    (feedIds : List String) (num_entries : Nat) : List Story :=
  let stories_ids := feedIds.take (min num_entries 500)
  let stories := stories_ids.map fetchStory
  stories.filterMap id

/-- Join of the per-id detail fetches of main.py's hacker_news_tool: the
asyncio.TaskGroup awaits every task and re-raises if any raised. main.py's
_get_story (lines 99-104) catches only ValidationError, so Except.ok none
models a schema-invalid body while Except.error models a transport-level
exception escaping the fetch and aborting the whole tool call. -/
def getStoryResults (fetchStory : String → Except Unit (Option Story)) :
    List String → Except Unit (List (Option Story))
  | [] => Except.ok []
  | i :: is =>
    match fetchStory i, getStoryResults fetchStory is with
    | Except.ok s, Except.ok ss => Except.ok (s :: ss)
    | Except.error e, _ => Except.error e
    | _, Except.error e => Except.error e

/-- hacker_news_tool (main.py lines 107-136), with the feed-index response
already decoded to feedIds. -/
def main_hacker_news_tool (fetchStory : String → Except Unit (Option Story))
    (feedIds : List String) (num_entries : Nat) : Except Unit (List Story) :=
  let stories_ids := feedIds.take (min num_entries 500)
  match getStoryResults fetchStory stories_ids with
  | Except.error e => Except.error e
  | Except.ok stories => Except.ok (stories.filterMap id)

/-- View of a raising detail fetch as an Option-valued one: the story when the
fetch returned ok (some story), none otherwise. -/
def exceptFetchToOpt (fetchStory : String → Except Unit (Option Story))
    (i : String) : Option Story :=
  match fetchStory i with
  | Except.ok o => o
  | Except.error _ => none

/-- Validation of one raw provider hit against the DuckDuckGoResult schema:
all three fields must be present. -/
def validateHit (r : RawSearchResult) : Option DuckDuckGoResult :=
  match r.title, r.href, r.body with
  | some t, some h, some b => some { title := t, href := h, body := b }
  | _, _, _ => none

/-- Validation of a whole provider result list, as TypeAdapter validation of
list[DuckDuckGoResult]: it fails if any single hit is invalid. -/
def validateHits : List RawSearchResult → Option (List DuckDuckGoResult)
  | [] => some []
  | r :: rs =>
    match validateHit r, validateHits rs with
    | some v, some vs => some (v :: vs)
    | _, _ => none

/-- DuckDuckGo search execute (tools.py lines 154-167 and the identical logic in
main.py lines 164-177): raise RuntimeError when the provider returned zero
results, otherwise validate the hits; a validation failure also propagates as
an error rather than a value. -/
def duckDuckGoSearchExecute (results : List RawSearchResult) :
    Except String (List DuckDuckGoResult) :=
  if results.length = 0 then Except.error ("No search results found.")
  else
    match validateHits results with
    | some validated => Except.ok validated
    | none => Except.error ("ValidationError")

/-- Outcome of one httpx GET as observed by the webpage tools: a body on
success, a transport error (httpx.RequestError), a bad status raised by
raise_for_status (httpx.HTTPStatusError), or any other exception, each
carrying its message. -/
inductive HttpOutcome where
  | success (text : String)
  | requestError (msg : String)
  | statusError (code : Nat) (msg : String)
  | otherFailure (msg : String)

/-- Model of Python str.lower(). -/
def pyLower (s : String) : String :=
  String.mk (s.data.map Char.toLower)

/-- Model of Python str.endswith(suf). -/
def pyEndsWith (s suf : String) : Bool :=
  List.isSuffixOf suf.data s.data

/-- Model of Python str.strip(): drop whitespace from both ends. -/
def pyStrip (s : String) : String :=
  String.mk (((s.data.dropWhile Char.isWhitespace).reverse.dropWhile Char.isWhitespace).reverse)

/-- Replacement of one maximal run of k newlines under the re.sub call of the
webpage tools: a run of three or more newlines becomes exactly two, shorter
runs are kept unchanged. -/
def collapseRun (k : Nat) : List Char :=
  List.replicate (if 3 ≤ k then 2 else k) '\n'

/-- Scanner for the newline-collapsing substitution; k counts the length of the
current run of consecutive newlines. -/
def collapseAux : List Char → Nat → List Char
  | [], k => collapseRun k
  | c :: cs, k =>
    if c = '\n' then collapseAux cs (k + 1) else collapseRun k ++ c :: collapseAux cs 0

/-- Model of the re.sub call that rewrites every run of three or more newlines
to a single blank line (tools.py line 204, main.py line 199). -/
def collapseNewlines (s : String) : String :=
  String.mk (collapseAux s.data 0)

/-- Scanner deciding whether three consecutive newlines occur; k counts the
newlines immediately preceding the current position. -/
def hasTripleAux : List Char → Nat → Bool
  | [], _ => false
  | c :: cs, k =>
    if c = '\n' then (if 2 ≤ k then true else hasTripleAux cs (k + 1)) else hasTripleAux cs 0

/-- Whether a string contains a run of three or more consecutive newlines. -/
def hasTripleNewline (s : String) : Bool :=
  hasTripleAux s.data 0

/-- WebpageTool.execute (tools.py lines 182-213). The HTTP GET is abstracted as
get and the external markdownify conversion as mdify. The function is total:
every failure is returned as a string, never thrown. The second component
records whether a network request was issued. -/
def webpageToolExecute (mdify : String → String) (get : String → HttpOutcome)
    (url : String) : String × Bool :=
  if pyEndsWith (pyLower url) (".pdf") then
    ("WebpageTool cannot be used to read PDF files!", false)
  else
    match get url with
    | HttpOutcome.success text =>
        (collapseNewlines (pyStrip (mdify text)), true)
    | HttpOutcome.requestError _ =>
        ("An error occurred while requesting \x27" ++ url ++ "\x27.", true)
    | HttpOutcome.statusError code _ =>
        ("Error response " ++ toString code ++ " while requesting \x27" ++ url ++ "\x27.", true)
    | HttpOutcome.otherFailure msg =>
        ("An unexpected error occurred: " ++ msg, true)

/-- visit_webpage_tool (main.py lines 181-206): the same fetch-and-convert
pipeline but with no PDF guard; httpx.HTTPError (covering both transport and
status errors) is caught into one in-band message, any other exception into
another. The function is total: no failure is thrown to the caller. -/
def visit_webpage_tool (mdify : String → String) (get : String → HttpOutcome)
    (url : String) : String × Bool :=
  match get url with
  | HttpOutcome.success text =>
      (collapseNewlines (pyStrip (mdify text)), true)
  | HttpOutcome.requestError msg =>
      ("Error fetching the webpage: " ++ msg, true)
  | HttpOutcome.statusError _ msg =>
      ("Error fetching the webpage: " ++ msg, true)
  | HttpOutcome.otherFailure msg =>
      ("An unexpected error occurred: " ++ msg, true)

/-- Attempt loop of the tenacity retry decorator with stop_after_attempt: f n is
the outcome of the n-th agent call, fuel is the number of further attempts
still allowed. An error with fuel left triggers a wait and a re-attempt; the
error of the final attempt is re-raised to the caller uncaught. -/
def retryAttempts {ε α : Type} (f : Nat → Except ε α) : Nat → Nat → Except ε α
  | attempt, 0 => f attempt
  | attempt, fuel + 1 =>
    match f attempt with
    | Except.ok a => Except.ok a
    | Except.error _ => retryAttempts f (attempt + 1) fuel

/-- get_research_result (main.py lines 209-218): the whole agent run wrapped in
retry with stop_after_attempt(3), so attempts 1, 2 and 3 at most. -/
def get_research_result {ε α : Type} (f : Nat → Except ε α) : Except ε α :=
  retryAttempts f 1 2

/-- Wait in seconds computed by tenacity wait_exponential(min=4) after attempt
number n: multiplier 1 and exponent base 2, clamped below by the floor 4
(the clamp above never binds for the attempt numbers reached here). -/
def waitExponentialMin4 (attempt_number : Nat) : Nat :=
  max 4 (2 ^ attempt_number)

/-- UsageLimits of pydantic_ai reduced to the request_limit field, the only one
agents.py sets. -/
structure UsageLimits where
  request_limit : Nat
deriving DecidableEq

/-- Configuration state of GrimaudAgent.__init__ (agents.py lines 56-78)
relevant to budgeting: the total configured request budget. -/
structure GrimaudConfig where
  request_limit : Nat

/-- Shared limits object self._usage built in __init__ (agents.py line 78):
UsageLimits with the full request_limit. -/
def grimaudUsage (c : GrimaudConfig) : UsageLimits :=
  { request_limit := c.request_limit }

/-- Usage limits passed by select_topic (agents.py line 146): a fresh
UsageLimits with request_limit set to the integer third of the total. -/
def selectTopicUsageLimits (c : GrimaudConfig) : UsageLimits :=
  { request_limit := c.request_limit / 3 }

/-- Usage limits passed by research_topic (agents.py line 178): the shared
self._usage object, carrying the full request_limit. -/
def researchTopicUsageLimits (c : GrimaudConfig) : UsageLimits :=
  grimaudUsage c

/-- Usage limits passed by generate_report (agents.py line 197): the shared
self._usage object, carrying the full request_limit. -/
def generateReportUsageLimits (c : GrimaudConfig) : UsageLimits :=
  grimaudUsage c

/-- Names of the three tool adapters defined in tools.py. -/
inductive ToolName where
  | hackerNews
  | duckDuckGoSearch
  | webpage
deriving DecidableEq

/-- Tool list of the topic-selector agent (agents.py lines 98-109). -/
def topicSelectorTools : List ToolName :=
  [ToolName.hackerNews]

/-- Tool list of the researcher agent (agents.py lines 111-125): webpage tool
and DuckDuckGo tool, in that order, and nothing else. -/
def researcherTools : List ToolName :=
  [ToolName.webpage, ToolName.duckDuckGoSearch]

/-- Tool list of the report generator (agents.py lines 127-137): empty. -/
def reportGeneratorTools : List ToolName :=
  []

/-- Prepare (gating) callbacks attached to the researcher's two tools:
GrimaudAgent.__init__ builds WebpageTool() and DuckDuckGoSearchTool() with the
default prepare_func=None (agents.py lines 81-83), so neither is gated on any
intent. -/
def researcherToolPrepares : List (Option (PkgRunDeps → Bool)) :=
  [none, none]

/-- RunDeps built by research_topic (agents.py line 176): only the client is
passed; the package RunDeps has no intent field that could be switched. -/
def researchTopicDeps : PkgRunDeps :=
  { client := () }

/-- Concrete detail fetch where every id resolves to the same story; used to
instantiate universally quantified theorems. -/
def fetchStoryW (_i : String) : Option Story :=
  some { title := "t", url := "u" }

/-- Concrete raising-style detail fetch where id 2 is schema-invalid and every
other id resolves; no transport error occurs. -/
def fetchStoryEW (i : String) : Except Unit (Option Story) :=
  if i = ("2" : String) then Except.ok none
  else Except.ok (some { title := "t", url := "u" })

/-- Concrete raising-style detail fetch where the fetch of id 2 raises a
transport-level error and every other id resolves. -/
def fetchStoryCex (i : String) : Except Unit (Option Story) :=
  if i = ("2" : String) then Except.error ()
  else Except.ok (some { title := "t", url := "u" })

/-- Left fold accumulating image lines equals appending the images section. -/
theorem foldl_imageLine (l : List ImageLink) (init : String) :
    l.foldl (fun acc img => acc ++ imageLine img) init = init ++ imagesMd l := by
  induction l generalizing init with
  | nil => simp [imagesMd, String.append_empty]
  | cons x xs ih =>
    rw [List.foldl_cons, ih, imagesMd, ← String.append_assoc]

/-- Left fold accumulating reference lines equals appending the references
section. -/
theorem foldl_referenceLine (l : List ReferenceLink) (init : String) :
    l.foldl (fun acc ref => acc ++ referenceLine ref) init = init ++ referencesMd l := by
  induction l generalizing init with
  | nil => simp [referencesMd, String.append_empty]
  | cons x xs ih =>
    rw [List.foldl_cons, ih, referencesMd, ← String.append_assoc]

/-- C2: output assembly is a deterministic pure function of the ResearchResult;
it splits as full text, then the image embeds in list order, then the
references heading and the reference links in list order, so the references
section never depends on the images list; and the concrete scenario of the
specification assembles to exactly the stated byte string. -/
theorem C2_output_assembly :
    (∀ r : ResearchResult,
        result_md r =
          (r.full_text ++ "\n\n" ++ imagesMd r.images) ++
            ("\n## References:\n\n" ++ referencesMd r.references))
    ∧ result_md
        { full_text := "Body",
          references := [{ description := "Src", url := "http://y" }],
          images := [{ description := "Fig1", url := "http://x/f.png" }] } =
      "Body\n\n![Fig1](http://x/f.png)\n\n## References:\n\n- [Src](http://y)\n" := by
  constructor
  · intro r
    simp only [result_md]
    rw [foldl_imageLine, foldl_referenceLine, String.append_assoc]
  · decide

/-- C9: the two gating predicates form a two-mode switch on the run intent: the
trending-story tool is eligible exactly when the goal equals the sentinel, the
keyword-search tool exactly when it differs, and for any goal exactly one of
the two is eligible. -/
theorem C9_gating_two_mode {α : Type} (goal : String) (td : α) :
    (select_hn goal td = some td ↔ goal = ("HN" : String))
    ∧ (select_hn goal td = none ↔ goal ≠ ("HN" : String))
    ∧ (select_search goal td = some td ↔ goal ≠ ("HN" : String))
    ∧ (select_search goal td = none ↔ goal = ("HN" : String))
    ∧ ((select_hn goal td).isSome = true ↔ (select_search goal td).isSome = false) := by
  by_cases h : goal = ("HN" : String) <;>
    simp [select_hn, select_search, h]

/-- Instantiation of the gating theorem at the sentinel goal. -/
theorem C9_gating_two_mode_witness :
    select_hn ("HN" : String) (0 : Nat) = some 0
    ∧ select_search ("notHN" : String) (0 : Nat) = some 0 :=
  ⟨(C9_gating_two_mode ("HN" : String) (0 : Nat)).1.mpr rfl,
   (C9_gating_two_mode ("notHN" : String) (0 : Nat)).2.2.1.mpr (by decide)⟩

/-- C10: the single-agent variant builds its run dependencies with search_goal
fixed to the sentinel, so on every turn the keyword-search tool's predicate
returns None and the HackerNews tool's predicate returns the tool definition. -/
theorem C10_single_agent_hn {α : Type} (td : α) :
    research_deps.search_goal = ("HN" : String)
    ∧ select_search research_deps.search_goal td = none
    ∧ select_hn research_deps.search_goal td = some td := by
  refine ⟨rfl, ?_, ?_⟩ <;> simp [research_deps, select_search, select_hn]

/-- Instantiation of the single-agent gating theorem at a concrete tool value. -/
theorem C10_single_agent_hn_witness :
    select_search research_deps.search_goal (0 : Nat) = none
    ∧ select_hn research_deps.search_goal (0 : Nat) = some 0 :=
  ⟨(C10_single_agent_hn (0 : Nat)).2.1, (C10_single_agent_hn (0 : Nat)).2.2⟩

/-- C4 counterexample: with a total budget of 9 the research stage runs under
the full budget of 9, and the three stage budgets sum to 21, so they do not
partition the configured total of 9. -/
theorem C4_counterexample :
    (researchTopicUsageLimits { request_limit := 9 }).request_limit = 9
    ∧ ¬ ((selectTopicUsageLimits { request_limit := 9 }).request_limit +
          (researchTopicUsageLimits { request_limit := 9 }).request_limit +
          (generateReportUsageLimits { request_limit := 9 }).request_limit = 9) := by
  decide

/-- C4 amended: the SELECT_TOPIC stage runs under the integer third of the total
request budget, while RESEARCH_TOPIC and GENERATE_REPORT each run under the
full total (the shared self._usage limits); for any positive total the three
stage limits sum to more than the total, so they do not partition it. -/
theorem C4_stage_budgets (c : GrimaudConfig) :
    (selectTopicUsageLimits c).request_limit = c.request_limit / 3
    ∧ (researchTopicUsageLimits c).request_limit = c.request_limit
    ∧ (generateReportUsageLimits c).request_limit = c.request_limit
    ∧ (1 ≤ c.request_limit →
        c.request_limit <
          (selectTopicUsageLimits c).request_limit +
            (researchTopicUsageLimits c).request_limit +
            (generateReportUsageLimits c).request_limit) := by
  refine ⟨rfl, rfl, rfl, fun h => ?_⟩
  simp only [selectTopicUsageLimits, researchTopicUsageLimits,
    generateReportUsageLimits, grimaudUsage]
  omega

/-- Instantiation of the budget theorem at total budget 9. -/
theorem C4_stage_budgets_witness :
    ({ request_limit := 9 } : GrimaudConfig).request_limit <
      (selectTopicUsageLimits { request_limit := 9 }).request_limit +
        (researchTopicUsageLimits { request_limit := 9 }).request_limit +
        (generateReportUsageLimits { request_limit := 9 }).request_limit :=
  (C4_stage_budgets { request_limit := 9 }).2.2.2 (by decide)

/-- C5 counterexample: the trending-story tool is not among the researcher
agent's tools. -/
theorem C5_counterexample : ToolName.hackerNews ∉ researcherTools := by
  decide

/-- C5 amended: the RESEARCH_TOPIC stage invokes the agent with exactly the
webpage-fetch and keyword-search tools; the trending-story tool is absent; no
gating callback is attached to either tool, and the run dependencies carry
only the client, so no intent switch to the topic text occurs. -/
theorem C5_researcher_tools :
    researcherTools = [ToolName.webpage, ToolName.duckDuckGoSearch]
    ∧ ToolName.hackerNews ∉ researcherTools
    ∧ (∀ p ∈ researcherToolPrepares, p = none)
    ∧ researchTopicDeps = { client := () } := by
  refine ⟨rfl, by decide, ?_, rfl⟩
  intro p hp
  simp only [researcherToolPrepares, List.mem_cons, List.not_mem_nil, or_false] at hp
  rcases hp with rfl | rfl <;> rfl

/-- Instantiation of the researcher-tools theorem at the first prepare entry. -/
theorem C5_researcher_tools_witness :
    (none : Option (PkgRunDeps → Bool)) = none :=
  C5_researcher_tools.2.2.1 none (List.mem_cons_self none [none])

/-- Successful validation of a provider list yields exactly one validated hit
per raw hit. -/
theorem validateHits_length (l : List RawSearchResult) (v : List DuckDuckGoResult)
    (h : validateHits l = some v) : v.length = l.length := by
  induction l generalizing v with
  | nil =>
    simp only [validateHits, Option.some.injEq] at h
    simp [← h]
  | cons r rs ih =>
    simp only [validateHits] at h
    cases hr : validateHit r with
    | none => rw [hr] at h; exact absurd h (by simp)
    | some w =>
      rw [hr] at h
      cases hrs : validateHits rs with
      | none => rw [hrs] at h; exact absurd h (by simp)
      | some ws =>
        rw [hrs] at h
        simp only [Option.some.injEq] at h
        rw [← h]
        simp [ih ws hrs]

/-- C6: the keyword-search call fails with an explicit error when the provider
returns zero results, returns the validated hits for a non-empty provider
list, and consequently never returns an empty hit list through the success
channel. -/
theorem C6_search_empty_fails (results : List RawSearchResult) :
    (results = [] →
        duckDuckGoSearchExecute results = Except.error ("No search results found."))
    ∧ (results ≠ [] →
        duckDuckGoSearchExecute results =
          match validateHits results with
          | some validated => Except.ok validated
          | none => Except.error ("ValidationError"))
    ∧ (∀ hits, duckDuckGoSearchExecute results = Except.ok hits →
        hits.length = results.length ∧ hits ≠ []) := by
  refine ⟨fun he => ?_, fun hne => ?_, fun hits hok => ?_⟩
  · subst he; rfl
  · have hlen : ¬ results.length = 0 := by
      simpa [List.length_eq_zero] using hne
    simp [duckDuckGoSearchExecute, hlen]
  · by_cases hlen : results.length = 0
    · exact absurd hok (by simp [duckDuckGoSearchExecute, hlen])
    · simp only [duckDuckGoSearchExecute, hlen, if_false] at hok
      cases hv : validateHits results with
      | none => rw [hv] at hok; exact absurd hok (by simp)
      | some validated =>
        rw [hv] at hok
        simp only [Except.ok.injEq] at hok
        have hl : hits.length = results.length := by
          rw [← hok]; exact validateHits_length results validated hv
        refine ⟨hl, ?_⟩
        intro hnil
        rw [hnil] at hl
        exact hlen (by simpa using hl.symm)

/-- Instantiation of the search theorem: the empty provider list errors, and a
concrete singleton provider list validates to one hit. -/
theorem C6_search_empty_fails_witness :
    duckDuckGoSearchExecute [] = Except.error ("No search results found.")
    ∧ (([{ title := "t", href := "h", body := "b" }] : List DuckDuckGoResult).length =
          ([{ title := some "t", href := some "h", body := some "b" }] :
            List RawSearchResult).length
        ∧ ([{ title := "t", href := "h", body := "b" }] : List DuckDuckGoResult) ≠ []) :=
  ⟨(C6_search_empty_fails []).1 rfl,
   (C6_search_empty_fails [{ title := some "t", href := some "h", body := some "b" }]).2.2
     [{ title := "t", href := "h", body := "b" }] rfl⟩

/-- Unfolding of the retry wrapper: at most the outcomes of attempts 1, 2 and 3
are consulted, in order, and the error of attempt 3 is the one surfaced. -/
theorem get_research_result_eq {ε α : Type} (f : Nat → Except ε α) :
    get_research_result f =
      match f 1 with
      | Except.ok a => Except.ok a
      | Except.error _ =>
        match f 2 with
        | Except.ok a => Except.ok a
        | Except.error _ => f 3 := rfl

/-- C8: the retry wrapper makes at most 3 attempts (its result depends only on
the outcomes of attempts 1 to 3), it retries on any failure, two transient
failures followed by a success yield exactly the third attempt's result, as if
it had succeeded immediately, exhausting all attempts surfaces the last
failure uncaught, and the exponential backoff never waits less than the floor
of 4 and is monotone in the attempt number. -/
theorem C8_retry_wrapper {ε α : Type} (f : Nat → Except ε α) :
    (∀ g : Nat → Except ε α, (∀ n, 1 ≤ n → n ≤ 3 → f n = g n) →
        get_research_result f = get_research_result g)
    ∧ (∀ e1 e2 a, f 1 = Except.error e1 → f 2 = Except.error e2 → f 3 = Except.ok a →
        get_research_result f = Except.ok a
        ∧ get_research_result f = get_research_result (fun _ => Except.ok a))
    ∧ (∀ e1 e2 e3, f 1 = Except.error e1 → f 2 = Except.error e2 → f 3 = Except.error e3 →
        get_research_result f = Except.error e3)
    ∧ (∀ n, 4 ≤ waitExponentialMin4 n)
    ∧ (∀ m n, m ≤ n → waitExponentialMin4 m ≤ waitExponentialMin4 n) := by
  refine ⟨fun g hg => ?_, fun e1 e2 a h1 h2 h3 => ⟨?_, ?_⟩,
    fun e1 e2 e3 h1 h2 h3 => ?_, fun n => ?_, fun m n hmn => ?_⟩
  · rw [get_research_result_eq f, get_research_result_eq g,
      hg 1 (by decide) (by decide), hg 2 (by decide) (by decide),
      hg 3 (by decide) (by decide)]
  · rw [get_research_result_eq f, h1, h2, h3]
  · rw [get_research_result_eq f, h1, h2, h3,
      get_research_result_eq (fun _ => Except.ok a)]
  · rw [get_research_result_eq f, h1, h2, h3]
  · exact le_max_left 4 (2 ^ n)
  · exact max_le_max (le_refl 4) (Nat.pow_le_pow_right (by decide) hmn)

/-- Instantiation of the retry theorem: an agent call failing twice and
succeeding on attempt 3 returns the third attempt's value, and one failing on
all three attempts surfaces the last error. -/
theorem C8_retry_wrapper_witness :
    get_research_result
        (fun n => if n = 3 then Except.ok 42 else Except.error ("overloaded")) =
      Except.ok 42
    ∧ get_research_result
        (fun n => (Except.error (toString n) : Except String Nat)) =
      Except.error ("3") :=
  ⟨((C8_retry_wrapper
      (fun n => if n = 3 then Except.ok 42 else Except.error ("overloaded"))).2.1
      ("overloaded") ("overloaded") 42 rfl rfl rfl).1,
   (C8_retry_wrapper (fun n => (Except.error (toString n) : Except String Nat))).2.2.1
      ("1") ("2") ("3") rfl rfl rfl⟩

/-- Scanning a kept run of at most two newlines followed by a non-newline
character reduces to scanning the remainder. -/
theorem hasTripleAux_replicate_append (c : Char) (rest : List Char) (hc : ¬ c = '\n')
    (m : Nat) (hm : m ≤ 2) :
    hasTripleAux (List.replicate m '\n' ++ c :: rest) 0 = hasTripleAux rest 0 := by
  interval_cases m <;>
    simp [hasTripleAux, hc, List.replicate_succ, List.replicate_zero]

/-- Core property of the newline-collapsing scanner: its output never contains
three consecutive newlines, whatever run count it starts from. -/
theorem hasTripleAux_collapseAux (l : List Char) :
    ∀ k, hasTripleAux (collapseAux l k) 0 = false := by
  induction l with
  | nil =>
    intro k
    by_cases h : 3 ≤ k
    · simp [collapseAux, collapseRun, h, List.replicate_succ, List.replicate_zero,
        hasTripleAux]
    · have hk : k ≤ 2 := by omega
      interval_cases k <;>
        simp [collapseAux, collapseRun, List.replicate_succ, List.replicate_zero,
          hasTripleAux]
  | cons c cs ih =>
    intro k
    by_cases hc : c = '\n'
    · subst hc
      rw [show collapseAux ('\n' :: cs) k = collapseAux cs (k + 1) from by
        simp [collapseAux]]
      exact ih (k + 1)
    · rw [show collapseAux (c :: cs) k = collapseRun k ++ c :: collapseAux cs 0 from by
        simp [collapseAux, hc]]
      have hm : (if 3 ≤ k then 2 else k) ≤ 2 := by split <;> omega
      rw [collapseRun, hasTripleAux_replicate_append c (collapseAux cs 0) hc _ hm]
      exact ih 0

/-- Collapsed strings never contain a run of three or more newlines. -/
theorem hasTripleNewline_collapseNewlines (s : String) :
    hasTripleNewline (collapseNewlines s) = false :=
  hasTripleAux_collapseAux s.data 0

/-- C3 counterexample: the main.py webpage tool, given a URL ending in .pdf,
still issues the network request and returns the fetched page rather than the
fixed rejection message. -/
theorem C3_counterexample :
    (visit_webpage_tool (fun s => s) (fun _ => HttpOutcome.success ("hello"))
        ("http://example.com/file.pdf")).2 = true
    ∧ (visit_webpage_tool (fun s => s) (fun _ => HttpOutcome.success ("hello"))
        ("http://example.com/file.pdf")).1 ≠
      "WebpageTool cannot be used to read PDF files!" := by
  refine ⟨rfl, ?_⟩
  decide

/-- C3 amended: for every URL whose lowercased form ends in .pdf, the tools.py
WebpageTool returns the fixed rejection message without issuing a network
request; the main.py visit_webpage_tool has no PDF guard and always issues the
request. -/
theorem C3_pdf_rejection (mdify : String → String) (get : String → HttpOutcome)
    (url : String) (hpdf : pyEndsWith (pyLower url) (".pdf") = true) :
    webpageToolExecute mdify get url = ("WebpageTool cannot be used to read PDF files!", false)
    ∧ (visit_webpage_tool mdify get url).2 = true := by
  constructor
  · simp [webpageToolExecute, hpdf]
  · cases h : get url <;> simp [visit_webpage_tool, h]

/-- Instantiation of the PDF-rejection theorem at a concrete uppercase PDF URL. -/
theorem C3_pdf_rejection_witness :
    webpageToolExecute (fun s => s) (fun _ => HttpOutcome.success ("hi")) ("http://x/A.PDF") =
      ("WebpageTool cannot be used to read PDF files!", false) :=
  (C3_pdf_rejection (fun s => s) (fun _ => HttpOutcome.success ("hi")) ("http://x/A.PDF")
    (by decide)).1

/-- C7: both webpage tools are total functions into strings, so HTTP-layer
failures are returned in-band and never thrown: a transport error or a bad
status yields the human-readable message of the respective implementation,
and a successful fetch yields the markdownified page, stripped and with every
run of three or more newlines collapsed, so the returned text never contains
three consecutive newlines. -/
theorem C7_webpage_errors_in_band (mdify : String → String) (get : String → HttpOutcome)
    (url : String) :
    (∀ text, get url = HttpOutcome.success text →
        pyEndsWith (pyLower url) (".pdf") = false →
        webpageToolExecute mdify get url = (collapseNewlines (pyStrip (mdify text)), true)
        ∧ hasTripleNewline (webpageToolExecute mdify get url).1 = false)
    ∧ (∀ msg, get url = HttpOutcome.requestError msg →
        pyEndsWith (pyLower url) (".pdf") = false →
        webpageToolExecute mdify get url =
          ("An error occurred while requesting \x27" ++ url ++ "\x27.", true))
    ∧ (∀ code msg, get url = HttpOutcome.statusError code msg →
        pyEndsWith (pyLower url) (".pdf") = false →
        webpageToolExecute mdify get url =
          ("Error response " ++ toString code ++ " while requesting \x27" ++ url ++ "\x27.", true))
    ∧ (∀ text, get url = HttpOutcome.success text →
        visit_webpage_tool mdify get url = (collapseNewlines (pyStrip (mdify text)), true)
        ∧ hasTripleNewline (visit_webpage_tool mdify get url).1 = false)
    ∧ (∀ msg, get url = HttpOutcome.requestError msg →
        visit_webpage_tool mdify get url = ("Error fetching the webpage: " ++ msg, true))
    ∧ (∀ code msg, get url = HttpOutcome.statusError code msg →
        visit_webpage_tool mdify get url = ("Error fetching the webpage: " ++ msg, true)) := by
  refine ⟨fun text hg hpdf => ?_, fun msg hg hpdf => ?_, fun code msg hg hpdf => ?_,
    fun text hg => ?_, fun msg hg => ?_, fun code msg hg => ?_⟩
  · have h1 : webpageToolExecute mdify get url = (collapseNewlines (pyStrip (mdify text)), true) := by
      simp [webpageToolExecute, hpdf, hg]
    exact ⟨h1, by rw [h1]; exact hasTripleNewline_collapseNewlines (pyStrip (mdify text))⟩
  · simp [webpageToolExecute, hpdf, hg]
  · simp [webpageToolExecute, hpdf, hg]
  · have h1 : visit_webpage_tool mdify get url = (collapseNewlines (pyStrip (mdify text)), true) := by
      simp [visit_webpage_tool, hg]
    exact ⟨h1, by rw [h1]; exact hasTripleNewline_collapseNewlines (pyStrip (mdify text))⟩
  · simp [visit_webpage_tool, hg]
  · simp [visit_webpage_tool, hg]

/-- Instantiation of the in-band error theorem: a concrete successful fetch has
its newline runs collapsed in both implementations, and a concrete transport
failure is returned as a message. -/
theorem C7_webpage_errors_in_band_witness :
    (webpageToolExecute (fun s => s) (fun _ => HttpOutcome.success ("a\n\n\n\nb"))
        ("http://x/page") = (collapseNewlines (pyStrip ("a\n\n\n\nb")), true)
      ∧ hasTripleNewline (webpageToolExecute (fun s => s)
          (fun _ => HttpOutcome.success ("a\n\n\n\nb")) ("http://x/page")).1 = false)
    ∧ visit_webpage_tool (fun s => s) (fun _ => HttpOutcome.requestError ("timeout"))
        ("http://x/page") = ("Error fetching the webpage: timeout", true) :=
  ⟨(C7_webpage_errors_in_band (fun s => s) (fun _ => HttpOutcome.success ("a\n\n\n\nb"))
      ("http://x/page")).1 ("a\n\n\n\nb") rfl (by decide),
   (C7_webpage_errors_in_band (fun s => s) (fun _ => HttpOutcome.requestError ("timeout"))
      ("http://x/page")).2.2.2.2.1 ("timeout") rfl⟩

/-- Rewriting of the tools.py story fetch as one filterMap over the truncated
feed index. -/
theorem hackerNewsExecute_eq (fetch : String → Option Story) (feedIds : List String)
    (n : Nat) :
    hackerNewsExecute fetch feedIds n = (feedIds.take (min n 500)).filterMap fetch := by
  simp only [hackerNewsExecute]
  rw [List.filterMap_map]
  rfl

/-- Join of the detail fetches succeeds exactly with the pointwise fetch
results, in feed order. -/
theorem getStoryResults_ok (fetchE : String → Except Unit (Option Story))
    (l : List String) (ss : List (Option Story))
    (h : getStoryResults fetchE l = Except.ok ss) :
    ss = l.map (exceptFetchToOpt fetchE) := by
  induction l generalizing ss with
  | nil =>
    simp only [getStoryResults, Except.ok.injEq] at h
    simp [← h]
  | cons i is ih =>
    simp only [getStoryResults] at h
    cases hf : fetchE i with
    | error e => rw [hf] at h; exact absurd h (by simp)
    | ok s =>
      rw [hf] at h
      cases hrec : getStoryResults fetchE is with
      | error e => rw [hrec] at h; exact absurd h (by simp)
      | ok ss' =>
        rw [hrec] at h
        simp only [Except.ok.injEq] at h
        rw [← h, List.map_cons, ← ih ss' hrec]
        simp [exceptFetchToOpt, hf]

/-- C1 counterexample: in the main.py implementation, a transport-level failure
of the detail fetch for id 2 aborts the whole tool call with an error instead
of returning the two successfully resolved stories. -/
theorem C1_counterexample :
    main_hacker_news_tool fetchStoryCex ["1", "2", "3"] 10 = Except.error ()
    ∧ main_hacker_news_tool fetchStoryCex ["1", "2", "3"] 10 ≠
        Except.ok [{ title := "t", url := "u" }, { title := "t", url := "u" }] :=
  ⟨rfl, fun h => Except.noConfusion (rfl.trans h)⟩

/-- C1 amended: for the tools.py HackerNewsTool, the fetch returns at most
min(num_entries, 500, N) stories, every returned story comes from a detail
fetch that succeeded and validated, and the output is a sublist of the
feed-ordered fetch results, hence in original feed-index order with failed or
invalid ids silently absent. For the main.py hacker_news_tool the same three
properties hold whenever the call returns a list at all; a transport-level
detail failure instead aborts the call (see the counterexample), while
schema-invalid details are still silently dropped. -/
theorem C1_amended (fetch : String → Option Story)
    (fetchE : String → Except Unit (Option Story)) (feedIds : List String) (n : Nat) :
    (hackerNewsExecute fetch feedIds n).length ≤ min n (min 500 feedIds.length)
    ∧ (∀ s ∈ hackerNewsExecute fetch feedIds n, ∃ i ∈ feedIds, fetch i = some s)
    ∧ List.Sublist (hackerNewsExecute fetch feedIds n) (feedIds.filterMap fetch)
    ∧ (∀ r, main_hacker_news_tool fetchE feedIds n = Except.ok r →
        r.length ≤ min n (min 500 feedIds.length)
        ∧ (∀ s ∈ r, ∃ i ∈ feedIds, fetchE i = Except.ok (some s))
        ∧ List.Sublist r (feedIds.filterMap (exceptFetchToOpt fetchE))) := by
  refine ⟨?_, fun s hs => ?_, ?_, fun r hr => ?_⟩
  · rw [hackerNewsExecute_eq]
    calc ((feedIds.take (min n 500)).filterMap fetch).length
        ≤ (feedIds.take (min n 500)).length := List.length_filterMap_le fetch _
      _ = min (min n 500) feedIds.length := List.length_take _ _
      _ = min n (min 500 feedIds.length) := min_assoc n 500 feedIds.length
  · rw [hackerNewsExecute_eq] at hs
    obtain ⟨i, hi, hfi⟩ := List.mem_filterMap.mp hs
    exact ⟨i, List.take_subset _ _ hi, hfi⟩
  · rw [hackerNewsExecute_eq]
    exact (List.take_sublist _ _).filterMap fetch
  · cases hg : getStoryResults fetchE (feedIds.take (min n 500)) with
    | error e => exact absurd hr (by simp [main_hacker_news_tool, hg])
    | ok stories =>
      have hro : (Except.ok (stories.filterMap id) : Except Unit (List Story)) = Except.ok r := by
        rw [← hr]; simp [main_hacker_news_tool, hg]
      have hrr : r = stories.filterMap id := (Except.ok.injEq _ _).mp hro.symm
      have hmap : stories = (feedIds.take (min n 500)).map (exceptFetchToOpt fetchE) :=
        getStoryResults_ok fetchE _ stories hg
      have hflt : r = (feedIds.take (min n 500)).filterMap (exceptFetchToOpt fetchE) := by
        rw [hrr, hmap, List.filterMap_map]
        rfl
      refine ⟨?_, fun s hs => ?_, ?_⟩
      · rw [hflt]
        calc ((feedIds.take (min n 500)).filterMap (exceptFetchToOpt fetchE)).length
            ≤ (feedIds.take (min n 500)).length := List.length_filterMap_le _ _
          _ = min (min n 500) feedIds.length := List.length_take _ _
          _ = min n (min 500 feedIds.length) := min_assoc n 500 feedIds.length
      · rw [hflt] at hs
        obtain ⟨i, hi, hfi⟩ := List.mem_filterMap.mp hs
        refine ⟨i, List.take_subset _ _ hi, ?_⟩
        cases hf : fetchE i with
        | error e => exact absurd hfi (by simp [exceptFetchToOpt, hf])
        | ok o =>
          have ho : o = some s := by
            have := hfi
            rw [exceptFetchToOpt, hf] at this
            exact this
          rw [ho]
      · rw [hflt]
        exact (List.take_sublist _ _).filterMap (exceptFetchToOpt fetchE)

/-- Instantiation of the story-fetch theorem: the every-entry-validated clause
at a concrete feed, and the main.py length bound at a run where id 2 is
schema-invalid and silently dropped. -/
theorem C1_amended_witness :
    (∃ i ∈ (["1", "2", "3"] : List String), fetchStoryW i = some { title := "t", url := "u" })
    ∧ ([({ title := "t", url := "u" } : Story)]).length ≤
        min 2 (min 500 (["1", "2", "3"] : List String).length) :=
  ⟨(C1_amended fetchStoryW fetchStoryEW ["1", "2", "3"] 2).2.1
      { title := "t", url := "u" } (by decide),
   ((C1_amended fetchStoryW fetchStoryEW ["1", "2", "3"] 2).2.2.2
      [{ title := "t", url := "u" }] rfl).1⟩

end Gcp
